import Mathlib

/-!
Verification of the portfolio-importer widget (src/widget.js and the unnamed
source file src/unnamed/part_000, here called "the optimized variant").

The development shallowly embeds the pieces of the program the claims are
about:

* JavaScript string primitives used by the code (`String.prototype.trim`,
  `String.prototype.split` with a one-character separator) as structural
  functions on `List Char`, so every definition evaluates by kernel
  reduction;
* the pipe-delimited CSV parser `parseNewsCSV` (part_000, lines 309-335),
  split as the source is: the row-parsing loop (`parseRows`), and the
  latest-date filter at the end (`selectLatest`);
* the Markdown assembler of the news import, in both variants: the
  direct-file variant of part_000 (lines 119-160) and the remote-service
  variant of widget.js (lines 112-160);
* the four user actions (update data, import news, import chart, run-all)
  as trace-producing functions over an environment of collaborator
  responses: each action yields the list of log lines and remote calls it
  performs.  Exceptions thrown and caught inside one action are modelled by
  the body returning its events so far together with an optional error
  message, which the action's catch-handler turns into the final error log
  line.
-/

/-! ## JavaScript string primitives -/

/-- The whitespace class of `String.prototype.trim` restricted to the ASCII
characters that can occur here: space, tab, line feed, carriage return,
vertical tab, form feed. -/
def jsWhitespace (c : Char) : Bool :=
  c = ' ' || c = '\t' || c = '\n' || c = '\r' || c = '\x0B' || c = '\x0C'

/-- `s.trim()`: drop leading and trailing whitespace. -/
def jsTrim (s : String) : String :=
  String.mk (((s.data.dropWhile jsWhitespace).reverse.dropWhile jsWhitespace).reverse)

/-- Helper for `jsSplit`: walk the characters, cutting at every separator.
`acc` holds the current field's characters in reverse. -/
def splitGo (sep : Char) : List Char → List Char → List String
  | [], acc => [String.mk acc.reverse]
  | x :: xs, acc =>
      if x = sep then String.mk acc.reverse :: splitGo sep xs []
      else splitGo sep xs (x :: acc)

/-- `s.split(sep)` for a one-character separator, as the two call sites use
it (`split('|')`, `split('\n')`).  Like JavaScript, `"".split(sep) = [""]`
and a trailing separator yields a trailing empty field. -/
def jsSplit (sep : Char) (s : String) : List String :=
  splitGo sep s.data []

/-- A JavaScript value read off an object property: `none` is `undefined`. -/
abbrev JsVal := Option String

/-- JavaScript truthiness of a string-or-undefined value: `undefined` and
`""` are falsy. -/
def truthy : JsVal → Bool
  | none => false
  | some s => s != ""

/-- Template-literal interpolation of a string-or-undefined value:
`undefined` prints as "undefined". -/
def strOf : JsVal → String
  | none => "undefined"
  | some s => s

/-- The idiom `v && v.trim()` used as a condition: `v` is defined, non-empty
and non-blank after trimming. -/
def truthyTrim : JsVal → Bool
  | none => false
  | some s => s != "" && jsTrim s != ""

/-! ## Records

`parseNewsCSV` builds each row as a plain object, assigning
`row[header] = value` for the headers in order; a later assignment to the
same key overwrites an earlier one.  A row is embedded as the list of
assignments in order, and property lookup returns the value of the last
assignment to the key, or `none` (undefined) when there is none. -/

/-- One parsed row: the `row[header] = value` assignments in order. -/
abbrev Record := List (String × String)

/-- Property read `row[key]`: the last assignment wins, absent keys are
`undefined`. -/
def getF? (row : Record) (key : String) : JsVal :=
  row.foldl (fun acc kv => if kv.1 = key then some kv.2 else acc) none

/-! ## The CSV parser (part_000, lines 309-335) -/

/-- Line 314: `lines[0].split('|').map(h => h.trim())`. -/
def headersOf (headerLine : String) : List String :=
  (jsSplit '|' headerLine).map jsTrim

/-- Lines 322-324: one row object,
`row[header] = values[index] ? values[index].trim() : ''`. -/
def mkRow (headers values : List String) : Record :=
  List.zipWith (fun h v => (h, if v = "" then "" else jsTrim v)) headers values

/-- Lines 317-328: the row loop.  A line whose `split('|')` count differs
from the header count is skipped (`continue`); otherwise it contributes one
row. -/
def parseRows (headers : List String) : List String → List Record
  | [] => []
  | line :: rest =>
      if (jsSplit '|' line).length ≠ headers.length then parseRows headers rest
      else mkRow headers (jsSplit '|' line) :: parseRows headers rest

/-- Lines 330-334: `if (data.length === 0) return [];
const latestDate = data[0].Date;
return data.filter(row => row.Date === latestDate);`.
`===` between two possibly-undefined strings is `Option` equality. -/
def selectLatest : List Record → List Record
  | [] => []
  | d0 :: rest =>
      (d0 :: rest).filter (fun row => getF? row "Date" == getF? d0 "Date")

/-- Lines 310-335 on the split line list: fewer than two lines yield `[]`,
otherwise the first line is the header and the rest are data rows, filtered
down to the first row's date. -/
def parseNewsLines : List String → List Record
  | [] => []
  | [_] => []
  | headerLine :: rest => selectLatest (parseRows (headersOf headerLine) rest)

/-- Line 310: `csvText.trim().split('\n')`, then the line-level parse. -/
def parseNewsCSV (csvText : String) : List Record :=
  parseNewsLines (jsSplit '\n' (jsTrim csvText))

/-! ## The Markdown assembler, direct-file variant (part_000, lines 119-160) -/

/-- Concatenation of the strings a loop appends (`fullMd += ...`). -/
def concatMap (f : α → String) : List α → String
  | [] => ""
  | x :: xs => f x ++ concatMap f xs

/-- The news-group indices iterated by `for (let i = 1; i <= 5; i++)`. -/
def newsIdxs : List Nat := [1, 2, 3, 4, 5]

/-- The property name `news_${i}_title` / `news_${i}_date` / `news_${i}_link`. -/
def newsKey (i : Nat) (suffix : String) : String :=
  "news_" ++ toString i ++ "_" ++ suffix

/-- Lines 129-134: the heading label.  With a defined, non-blank `thesis`
the ticker is wrapped as the block reference `((thesis \x27ticker\x27))`,
otherwise it is the plain ticker. -/
def tickerDisplay (item : Record) : String :=
  if truthyTrim (getF? item "thesis") then
    "((" ++ strOf (getF? item "thesis") ++ " \x27"
      ++ strOf (getF? item "ticker") ++ "\x27))"
  else strOf (getF? item "ticker")

/-- Line 136: `fullMd += \x60## ${tickerDisplay}\n\n\x60`. -/
def headingOf (item : Record) : String :=
  "## " ++ tickerDisplay item ++ "\n\n"

/-- Line 145: the guard of one news group — defined, non-blank title and
defined, non-blank link. -/
def emitsGroup (item : Record) (i : Nat) : Bool :=
  truthyTrim (getF? item (newsKey i "title"))
    && truthyTrim (getF? item (newsKey i "link"))

/-- Lines 140-153: what iteration `i` of the news loop appends — one list
line `- [title](link)` with an optional ` · date` annotation when the group
has a non-blank title and link, nothing otherwise. -/
def newsGroupLine (item : Record) (i : Nat) : String :=
  if emitsGroup item i then
    "- [" ++ jsTrim (strOf (getF? item (newsKey i "title"))) ++ "]("
      ++ jsTrim (strOf (getF? item (newsKey i "link"))) ++ ")"
      ++ (if truthyTrim (getF? item (newsKey i "date"))
          then " · " ++ jsTrim (strOf (getF? item (newsKey i "date")))
          else "")
      ++ "\n"
  else ""

/-- Lines 129-159: one record's section — heading, the five news-group
lines in order, the fallback placeholder when no group emitted a line, and
the blank separator line. -/
def sectionFile (item : Record) : String :=
  headingOf item
    ++ concatMap (newsGroupLine item) newsIdxs
    ++ (if newsIdxs.any (emitsGroup item) then "" else "*(暂无新闻)*\n")
    ++ "\n"

/-- Line 121: the document-level heading with the display date. -/
def docHeader (date : String) : String :=
  "\n---\n# 📈 Portfolio News Update (" ++ date ++ ")\n\n"

/-- Lines 121-160: the whole document, for a given display date. -/
def buildNewsMdFile (date : String) (newsData : List Record) : String :=
  docHeader date ++ concatMap sectionFile newsData

/-- Lines 119-160 as the import runs them: the display date is
`newsData[0].Date` (the call site guarantees `newsData` is non-empty). -/
def newsImportMd (newsData : List Record) : String :=
  buildNewsMdFile (strOf (getF? (newsData.headD []) "Date")) newsData

/-! ## The Markdown assembler, remote-service variant (widget.js, lines 112-160)

widget.js receives the news items from the bridge as JSON.  Each item
carries the same string properties a parsed row does, plus an optional
`symbol_info` object with optional `sector` and `earnings_date` members. -/

/-- The optional `symbol_info` object of a remote news item. -/
structure SymbolData where
  sector : JsVal
  earnings_date : JsVal
deriving DecidableEq

/-- One remote news item: its string properties and its `symbol_info`. -/
structure NewsItem where
  fields : Record
  symbol_info : Option SymbolData
deriving DecidableEq

/-- `a || b` on a string-or-undefined value: `b` when `a` is falsy. -/
def jsOr (v : JsVal) (dflt : String) : String :=
  if truthy v then strOf v else dflt

/-- widget.js lines 119-125: the same heading label as the direct-file
variant. -/
def tickerDisplayW (item : Record) : String :=
  if truthyTrim (getF? item "thesis") then
    "((" ++ strOf (getF? item "thesis") ++ " \x27"
      ++ strOf (getF? item "ticker") ++ "\x27))"
  else strOf (getF? item "ticker")

/-- widget.js lines 129-134: the annotation appended after the heading when
`symbol_info` is present — ` · sector` (defaulting to `N/A`) and, when an
earnings date is present, ` · 📅 earnings_date`. -/
def symbolAnnot : Option SymbolData → String
  | none => ""
  | some si =>
      " · " ++ jsOr si.sector "N/A"
        ++ (if truthy si.earnings_date
            then " · 📅 " ++ strOf si.earnings_date
            else "")

/-- widget.js line 145 guard (same text as part_000 line 145). -/
def emitsGroupW (item : Record) (i : Nat) : Bool :=
  truthyTrim (getF? item (newsKey i "title"))
    && truthyTrim (getF? item (newsKey i "link"))

/-- widget.js lines 140-153 (same text as part_000 lines 140-153). -/
def newsGroupLineW (item : Record) (i : Nat) : String :=
  if emitsGroupW item i then
    "- [" ++ jsTrim (strOf (getF? item (newsKey i "title"))) ++ "]("
      ++ jsTrim (strOf (getF? item (newsKey i "link"))) ++ ")"
      ++ (if truthyTrim (getF? item (newsKey i "date"))
          then " · " ++ jsTrim (strOf (getF? item (newsKey i "date")))
          else "")
      ++ "\n"
  else ""

/-- widget.js lines 114-159: one remote item's section — heading, the
`symbol_info` annotation, the news lines, the fallback, the separator. -/
def sectionRemote (item : NewsItem) : String :=
  "## " ++ tickerDisplayW item.fields
    ++ symbolAnnot item.symbol_info
    ++ "\n\n"
    ++ concatMap (newsGroupLineW item.fields) newsIdxs
    ++ (if newsIdxs.any (emitsGroupW item.fields) then "" else "*(暂无新闻)*\n")
    ++ "\n"

/-- widget.js line 112: the same document-level heading. -/
def docHeaderW (date : String) : String :=
  "\n---\n# 📈 Portfolio News Update (" ++ date ++ ")\n\n"

/-- widget.js lines 112-160: the whole document for the display date the
bridge returned. -/
def buildNewsMdRemote (date : String) (newsItems : List NewsItem) : String :=
  docHeaderW date ++ concatMap sectionRemote newsItems

/-! ## The task orchestrator (part_000, lines 30-304)

Each user action is embedded as a function from an environment of
collaborator responses to the list of observable events it performs: log
lines (with their level) and remote calls (fetches), in order.  A `throw`
inside an action's `try` block is modelled by the body returning the events
emitted so far together with `some message`; the action's own
`catch (e) { log(...) }` turns that into a final error log line, so no
action ever propagates an exception to its caller. -/

/-- One observable event of an action: a log line or a remote call. -/
inductive Ev where
  | logLine (lvl : String) (msg : String)
  | remoteCall (endpoint : String)
deriving DecidableEq

/-- The optional `summary` block of the update-portfolio response. -/
structure Summary where
  total_value : String
  unrealized_pl : String
  total_dividends : String
  position_count : String
deriving DecidableEq

/-- The update-portfolio collaborator's response: HTTP status, body status
flag, error message, chart status flag, optional summary. -/
structure BridgeResp where
  httpStatus : Nat
  status : String
  message : String
  chart_status : String
  summary : Option Summary
deriving DecidableEq

/-- A host-document append response: numeric code (0 = success) and
message. -/
structure ApiResp where
  code : Int
  msg : String
deriving DecidableEq

/-- Everything outside the widget that an action run can observe: the
target-document input's value and each collaborator's response. -/
structure Env where
  targetDocId : String
  bridge : BridgeResp
  newsFileOk : Bool
  newsFileText : String
  newsAppend : ApiResp
  chartFileOk : Bool
  chartAppend : ApiResp

/-- `Response.ok`: HTTP status in the 2xx range. -/
def respOk (httpStatus : Nat) : Bool :=
  200 ≤ httpStatus && httpStatus ≤ 299

/-- Line 7: the storage path prefix. -/
def SIYUAN_STORAGE_PATH : String := "/data/storage/petal/portfolio-importer"

/-- Line 100: the news CSV path. -/
def newsPath : String := SIYUAN_STORAGE_PATH ++ "/portfolio_news_history.csv"

/-- Line 210: the chart HTML path. -/
def chartPath : String := SIYUAN_STORAGE_PATH ++ "/portfolio_sectors_unified.html"

/-- Lines 59-63: the chart-status log of the update action. -/
def chartStatusLogs (cs : String) : List Ev :=
  if cs = "success" then [.logLine "success" "✅ portfolio_sectors_unified.html 已生成"]
  else if cs = "warning" then [.logLine "warning" "⚠️ 图表生成有警告，但数据已完成"]
  else []

/-- Lines 65-71: the summary logs of the update action. -/
def summaryLogs : Option Summary → List Ev
  | none => []
  | some s =>
      [.logLine "info" "📊 投资组合概览:",
       .logLine "default" ("   总价值: " ++ s.total_value),
       .logLine "default" ("   未实现盈亏: " ++ s.unrealized_pl),
       .logLine "default" ("   总股息: " ++ s.total_dividends),
       .logLine "default" ("   持仓数: " ++ s.position_count)]

/-- Lines 33-73: the update action's body up to (not including) its catch
handler — the events emitted, and the thrown error message if any.  The
action performs no target-identifier validation: it logs, issues the bridge
call, and then checks the transport status and the body status flag. -/
def runUpdateBody (env : Env) : List Ev × Option String :=
  let pre : List Ev :=
    [.logLine "info" "🚀 开始执行投资组合数据更新...",
     .logLine "info" "📡 正在运行 portfolio_exposure.py...",
     .remoteCall "POST /run-task"]
  if !respOk env.bridge.httpStatus then
    (pre, some ("HTTP错误: " ++ toString env.bridge.httpStatus))
  else if env.bridge.status ≠ "success" then
    (pre, some ("Python 脚本错误: " ++ env.bridge.message))
  else
    (pre
      ++ [.logLine "success" "✅ portfolio_history_unified.csv 已生成",
          .logLine "success" "✅ portfolio_news_history.csv 已生成"]
      ++ chartStatusLogs env.bridge.chart_status
      ++ summaryLogs env.bridge.summary
      ++ [.logLine "info" "💡 提示: 现在可以导入新闻或图表到思源笔记（无需 bridge 运行）"],
     none)

/-- Lines 30-81: `runPortfolioUpdate`.  Its catch handler logs the error
and the function returns normally either way, so a failing update never
propagates to a caller. -/
def runPortfolioUpdateEv (env : Env) : List Ev :=
  match runUpdateBody env with
  | (evs, none) => evs
  | (evs, some m) => evs ++ [.logLine "error" ("❌ 失败: " ++ m)]

/-- Lines 127-134: the per-item logs emitted while the Markdown is built. -/
def itemLogs (item : Record) : List Ev :=
  .logLine "default" ("处理新闻: " ++ strOf (getF? item "ticker"))
    :: (if truthyTrim (getF? item "thesis")
        then [.logLine "default" ("  ✓ 已链接到论文: " ++ strOf (getF? item "thesis"))]
        else [])

/-- Lines 95-184: the news-import action's body after validation — read the
local CSV, parse it, build the Markdown (logging per item), append to the
host document, and report. -/
def importNewsBody (env : Env) : List Ev × Option String :=
  let pre : List Ev :=
    [.logLine "info" "📂 正在读取本地新闻数据...",
     .remoteCall ("GET " ++ newsPath)]
  if !env.newsFileOk then
    (pre, some ("无法读取新闻文件: " ++ newsPath ++ ". 请先运行\"更新投资组合数据\""))
  else
    let newsData := parseNewsCSV env.newsFileText
    if newsData.length = 0 then
      (pre, some "新闻数据为空")
    else
      let buildEvs : List Ev :=
        .logLine "info" "📝 正在构建 Markdown 格式..." :: (newsData.map itemLogs).flatten
      let callEvs : List Ev :=
        [.logLine "info" "📤 正在同步到思源笔记...",
         .remoteCall "POST /api/block/appendBlock"]
      if env.newsAppend.code = 0 then
        let linkedCount := (newsData.filter (fun it => truthyTrim (getF? it "thesis"))).length
        (pre ++ buildEvs ++ callEvs
          ++ [.logLine "success"
                ("🎉 新闻导入成功！已添加 " ++ toString newsData.length ++ " 个持仓的新闻")]
          ++ (if linkedCount > 0
              then [.logLine "success"
                      ("🔗 其中 " ++ toString linkedCount ++ " 个已链接到投资论文")]
              else []),
         none)
      else
        (pre ++ buildEvs ++ callEvs, some ("思源 API 错误: " ++ env.newsAppend.msg))

/-- Lines 86-192: `importNewsToSiyuan`.  A blank (after trimming) target
identifier is rejected before anything else happens: one validation error
log line and no remote call.  Otherwise the body runs under the catch
handler. -/
def importNewsEv (env : Env) : List Ev :=
  if jsTrim env.targetDocId = "" then
    [.logLine "error" "错误: 请输入目标文档 ID"]
  else
    .logLine "info" "📰 开始导入最新新闻到思源笔记..."
      :: (match importNewsBody env with
          | (evs, none) => evs
          | (evs, some m) => evs ++ [.logLine "error" ("❌ 失败: " ++ m)])

/-- Lines 206-248: the chart-import action's body after validation. -/
def importChartBody (env : Env) : List Ev × Option String :=
  let pre : List Ev :=
    [.logLine "info" "📂 检查图表文件...",
     .remoteCall ("HEAD " ++ chartPath)]
  if !env.chartFileOk then
    (pre, some ("图表文件不存在: " ++ chartPath ++ ". 请先运行\"更新投资组合数据\""))
  else
    let evs := pre
      ++ [.logLine "success" "✅ 图表文件已找到",
          .logLine "info" "📤 正在嵌入图表到思源笔记...",
          .remoteCall "POST /api/block/appendBlock"]
    if env.chartAppend.code = 0 then
      (evs ++ [.logLine "success" "🎉 交互式图表导入成功！",
               .logLine "info" "💡 图表包含:",
               .logLine "default" "   - 扇形图: 板块配置",
               .logLine "default" "   - 扇形图: 风险类别配置",
               .logLine "default" "   - 日期滑块: 查看历史变化",
               .logLine "default" "   - 详细持仓: 盈亏、股息、新闻"],
       none)
    else
      (evs, some ("思源 API 错误: " ++ env.chartAppend.msg))

/-- Lines 197-256: `importChartToSiyuan`, with the same validation-first
shape as the news import. -/
def importChartEv (env : Env) : List Ev :=
  if jsTrim env.targetDocId = "" then
    [.logLine "error" "错误: 请输入目标文档 ID"]
  else
    .logLine "info" "📊 开始导入交互式图表..."
      :: (match importChartBody env with
          | (evs, none) => evs
          | (evs, some m) => evs ++ [.logLine "error" ("❌ 失败: " ++ m)])

/-- Lines 261-304: `importFullPortfolio`, the run-all action.  After its
own validation it awaits the three single-step actions in order.  Each of
those catches every failure internally and resolves normally, so nothing in
the `try` block can throw: the catch handler at line 295 is unreachable and
the pipeline always runs all three steps and the final success log. -/
def importFullPortfolioEv (env : Env) : List Ev :=
  if jsTrim env.targetDocId = "" then
    [.logLine "error" "错误: 请输入目标文档 ID"]
  else
    [Ev.logLine "info" "🚀 开始执行完整导入流程...",
     Ev.logLine "info" "\n=== 步骤 1/3: 更新投资组合数据 ==="]
    ++ runPortfolioUpdateEv env
    ++ [Ev.logLine "info" "\n=== 步骤 2/3: 导入新闻 ==="]
    ++ importNewsEv env
    ++ [Ev.logLine "info" "\n=== 步骤 3/3: 导入交互式图表 ==="]
    ++ importChartEv env
    ++ [Ev.logLine "success" "\n🎊 完整导入流程执行成功！"]

/-- Remote calls performed during a run. -/
def remoteCallCount (evs : List Ev) : Nat :=
  (evs.filter (fun e => match e with | .remoteCall _ => true | _ => false)).length

/-- The one validation error line the actions emit for a blank target. -/
def validationErrorCount (evs : List Ev) : Nat :=
  (evs.filter (fun e => e == Ev.logLine "error" "错误: 请输入目标文档 ID")).length

/-! ## Concrete inputs used by counterexamples and witnesses -/

/-- A record dated `D2`. -/
def recD2a : Record := [("Date", "D2"), ("ticker", "AAA")]

/-- A record dated `D1`. -/
def recD1 : Record := [("Date", "D1"), ("ticker", "BBB")]

/-- A second record dated `D2`, appearing after the `D1` record. -/
def recD2b : Record := [("Date", "D2"), ("ticker", "CCC")]

/-- An environment in which the update collaborator answers HTTP 200 with
body status `"error"` (message `"boom"`), while everything else succeeds,
and the target identifier is non-blank. -/
def envUpdateFails : Env :=
  { targetDocId := "20240101-doc",
    bridge := { httpStatus := 200, status := "error", message := "boom",
                chart_status := "", summary := none },
    newsFileOk := true,
    newsFileText := "Date|ticker\n2024-01-05|AAPL",
    newsAppend := { code := 0, msg := "" },
    chartFileOk := true,
    chartAppend := { code := 0, msg := "" } }

/-- A remote news item without `symbol_info`, for the builder-agreement
witness. -/
def plainItem : NewsItem :=
  { fields := [("ticker", "AAPL"), ("Date", "2024-01-05")], symbol_info := none }

/-- An environment whose target-document input holds only blanks, with all
collaborators well-behaved. -/
def envBlankTarget : Env :=
  { targetDocId := "   ",
    bridge := { httpStatus := 200, status := "success", message := "",
                chart_status := "success", summary := none },
    newsFileOk := true,
    newsFileText := "Date|ticker\n2024-01-05|AAPL",
    newsAppend := { code := 0, msg := "" },
    chartFileOk := true,
    chartAppend := { code := 0, msg := "" } }

/-! ## Helper lemmas -/

theorem jsTrim_empty : jsTrim "" = "" := rfl

theorem ne_empty_of_jsTrim_ne (s : String) (h : jsTrim s ≠ "") : s ≠ "" :=
  fun e => h (by rw [e]; rfl)

theorem jsVal_beq_self (o : JsVal) : (o == o) = true := by
  cases o <;> simp

theorem selectLatest_cons_eq (d0 : Record) (rs : List Record) :
    selectLatest (d0 :: rs)
      = d0 :: rs.filter (fun row => getF? row "Date" == getF? d0 "Date") := by
  simp [selectLatest, List.filter_cons, jsVal_beq_self]

theorem selectLatest_eq_nil_iff (ds : List Record) :
    selectLatest ds = [] ↔ ds = [] := by
  cases ds with
  | nil => simp [selectLatest]
  | cons d0 rs => simp [selectLatest_cons_eq]

theorem mkRow_eq_zip (headers values : List String) :
    mkRow headers values = headers.zip (values.map jsTrim) := by
  induction headers generalizing values with
  | nil => simp [mkRow]
  | cons h hs ih =>
      cases values with
      | nil => simp [mkRow]
      | cons v vs =>
          have hv : (if v = "" then "" else jsTrim v) = jsTrim v := by
            by_cases e : v = "" <;> simp [e, jsTrim_empty]
          simpa [mkRow, hv] using ih vs

theorem parseRows_eq (headers : List String) (ls : List String) :
    parseRows headers ls
      = (ls.filter (fun l => (jsSplit '|' l).length == headers.length)).map
          (fun l => mkRow headers (jsSplit '|' l)) := by
  induction ls with
  | nil => rfl
  | cons line rest ih =>
      by_cases h : (jsSplit '|' line).length = headers.length
      · simp [parseRows, h, List.filter_cons, ih]
      · simp [parseRows, h, List.filter_cons, ih]

theorem str_append_empty (s : String) : s ++ "" = s := by
  cases s
  simp [String.instAppend, String.append]

theorem tickerDisplayW_eq : tickerDisplayW = tickerDisplay := rfl

theorem newsGroupLineW_eq : newsGroupLineW = newsGroupLine := rfl

theorem emitsGroupW_eq : emitsGroupW = emitsGroup := rfl

theorem docHeaderW_eq : docHeaderW = docHeader := rfl

theorem sectionRemote_no_symbol (it : NewsItem) (h : it.symbol_info = none) :
    sectionRemote it = sectionFile it.fields := by
  simp [sectionRemote, sectionFile, headingOf, h, symbolAnnot,
    tickerDisplayW_eq, newsGroupLineW_eq, emitsGroupW_eq,
    str_append_empty, String.append_assoc]

theorem concatMap_sections_eq (items : List NewsItem)
    (h : ∀ it ∈ items, it.symbol_info = none) :
    concatMap sectionRemote items
      = concatMap sectionFile (items.map NewsItem.fields) := by
  induction items with
  | nil => rfl
  | cons it its ih =>
      have h0 : it.symbol_info = none := h it (List.mem_cons_self it its)
      have ht : ∀ x ∈ its, x.symbol_info = none :=
        fun x hx => h x (List.mem_cons_of_mem it hx)
      simp [concatMap, sectionRemote_no_symbol it h0, ih ht]

/-! ## Claim theorems -/

/-- Claim C3: for a header line with N pipe-delimited fields, the row loop
of `parseNewsCSV` turns exactly the data lines with N pipe-delimited values
into rows — each row pairs the trimmed header names, in header order, with
the trimmed values — and a line with a different value count contributes
nothing while the remaining lines are still parsed. -/
theorem parser_rows_characterized (headerLine : String) (dataLines : List String) :
    parseRows (headersOf headerLine) dataLines
      = (dataLines.filter
            (fun l => (jsSplit '|' l).length == (headersOf headerLine).length)).map
          (fun l => (headersOf headerLine).zip ((jsSplit '|' l).map jsTrim)) := by
  rw [parseRows_eq]
  exact List.map_congr_left (fun l _ => mkRow_eq_zip (headersOf headerLine) (jsSplit '|' l))

/-- Claim C4, counterexample: the input `"A|B\nx"` holds a header line and
one data line (two lines after trimming and splitting), yet the parser
returns the empty record set, because the data line's field count differs
from the header's. -/
theorem parse_header_and_row_yields_empty :
    parseNewsCSV "A|B\nx" = []
    ∧ (jsSplit '\n' (jsTrim "A|B\nx")).length = 2 := by decide

/-- Claim C4 as amended: the parser returns the empty record set exactly
when the input has fewer than 2 lines or no data line's pipe-delimited
value count equals the header's field count; with at least one matching
data line the result is non-empty. -/
theorem parse_empty_iff_no_matching_row :
    parseNewsLines ([] : List String) = []
    ∧ (∀ l, parseNewsLines [l] = [])
    ∧ ∀ headerLine l0 rest,
        (parseNewsLines (headerLine :: l0 :: rest) = []
          ↔ ∀ l ∈ l0 :: rest,
              (jsSplit '|' l).length ≠ (headersOf headerLine).length) := by
  refine ⟨rfl, fun l => rfl, fun headerLine l0 rest => ?_⟩
  have e : parseNewsLines (headerLine :: l0 :: rest)
      = selectLatest (parseRows (headersOf headerLine) (l0 :: rest)) := rfl
  rw [e, selectLatest_eq_nil_iff, parseRows_eq]
  simp

/-- Claim C5: applied to any non-empty record set, `selectLatest` returns
the order-preserving subsequence (a filter) of the records whose `Date`
equals the `Date` of the record at position 0; applied to the empty set it
returns the empty set. -/
theorem selectLatest_first_date_filter (ds : List Record) :
    (selectLatest ds).Sublist ds
    ∧ (ds = [] → selectLatest ds = [])
    ∧ ∀ d0 rs, ds = d0 :: rs →
        selectLatest ds
          = (d0 :: rs).filter (fun r => getF? r "Date" == getF? d0 "Date") := by
  refine ⟨?_, fun h => by rw [h]; rfl, fun d0 rs h => by rw [h]; rfl⟩
  cases ds with
  | nil => simp [selectLatest]
  | cons d0 rs =>
      rw [show selectLatest (d0 :: rs)
            = (d0 :: rs).filter (fun row => getF? row "Date" == getF? d0 "Date") from rfl]
      exact List.filter_sublist (d0 :: rs)

/-- Claim C6, counterexample: with records dated `[D2, D1, D2]` the
selector keeps the first AND the third record — the third lies after the
prefix-run of `D2` records (the `D1` record interrupts it), yet its date
matches the first record's, so the claimed prefix-run behaviour is not what
the code does. -/
theorem selectLatest_keeps_later_match :
    selectLatest [recD2a, recD1, recD2b] = [recD2a, recD2b]
    ∧ getF? recD1 "Date" ≠ getF? recD2a "Date" := by decide

/-- Claim C6 as amended: for every record set of size at least 1, the
selector's output is the order-preserving subsequence of ALL records whose
`Date` equals the first record's `Date` — including records that match
again after an intervening different date (dates `[D2,D1,D2]` select the
first and third records). -/
theorem selectLatest_membership (d0 : Record) (rs : List Record) :
    (selectLatest (d0 :: rs)).Sublist (d0 :: rs)
    ∧ ∀ r, r ∈ selectLatest (d0 :: rs)
        ↔ r ∈ d0 :: rs ∧ getF? r "Date" = getF? d0 "Date" := by
  constructor
  · rw [show selectLatest (d0 :: rs)
          = (d0 :: rs).filter (fun row => getF? row "Date" == getF? d0 "Date") from rfl]
    exact List.filter_sublist (d0 :: rs)
  · intro r
    rw [selectLatest_cons_eq]
    simp only [List.mem_cons, List.mem_filter, beq_iff_eq]
    constructor
    · rintro (rfl | ⟨hm, hp⟩)
      · exact ⟨Or.inl rfl, rfl⟩
      · exact ⟨Or.inr hm, hp⟩
    · rintro ⟨rfl | hm, hp⟩
      · exact Or.inl rfl
      · exact Or.inr ⟨hm, hp⟩

/-- Claim C9: the latest-snapshot selection of a non-empty record set is
non-empty and starts with the input's first record; the output is empty
exactly when the input is. -/
theorem selectLatest_nonempty_head (ds : List Record) :
    (selectLatest ds = [] ↔ ds = [])
    ∧ ∀ d0 rs, ds = d0 :: rs → (selectLatest ds).head? = some d0 := by
  refine ⟨selectLatest_eq_nil_iff ds, fun d0 rs h => ?_⟩
  rw [h, selectLatest_cons_eq]
  rfl

/-- Claim C7: in the rendered snapshot, a record whose `thesis` is present
and non-blank after trimming gets a section heading that is the block
reference embedding the thesis identifier and the literal ticker string as
display text; a record whose `thesis` is absent or blank gets a heading
holding only the plain ticker string. -/
theorem heading_cross_reference (item : Record) :
    (∀ s, getF? item "thesis" = some s → jsTrim s ≠ "" →
        headingOf item
          = "## " ++ ("((" ++ s ++ " \x27"
              ++ strOf (getF? item "ticker") ++ "\x27))") ++ "\n\n")
    ∧ (getF? item "thesis" = none →
        headingOf item = "## " ++ strOf (getF? item "ticker") ++ "\n\n")
    ∧ ∀ s, getF? item "thesis" = some s → jsTrim s = "" →
        headingOf item = "## " ++ strOf (getF? item "ticker") ++ "\n\n" := by
  refine ⟨fun s hs ht => ?_, fun hn => ?_, fun s hs ht => ?_⟩
  · have hne : s ≠ "" := ne_empty_of_jsTrim_ne s ht
    have hc : truthyTrim (some s) = true := by
      simp [truthyTrim, hne, ht]
    simp [headingOf, tickerDisplay, hs, hc, strOf]
  · simp [headingOf, tickerDisplay, hn, truthyTrim]
  · have hc : truthyTrim (some s) = false := by
      simp [truthyTrim, ht]
    simp [headingOf, tickerDisplay, hs, hc]

/-- Claim C8: for every record the renderer walks news groups 1..5 in
order; a group with a defined, non-blank title and link emits exactly one
list line (trimmed title as link text, trimmed link as target, trimmed
group date appended after a middle dot when non-blank), a group with a
blank or missing title or link emits nothing, and a record none of whose
groups emit a line gets exactly the one fixed fallback placeholder line. -/
theorem news_lines_and_fallback (item : Record) :
    (∀ i, emitsGroup item i = false → newsGroupLine item i = "")
    ∧ (∀ i t l, getF? item (newsKey i "title") = some t → jsTrim t ≠ "" →
        getF? item (newsKey i "link") = some l → jsTrim l ≠ "" →
        newsGroupLine item i
          = "- [" ++ jsTrim t ++ "](" ++ jsTrim l ++ ")"
              ++ (if truthyTrim (getF? item (newsKey i "date"))
                  then " · " ++ jsTrim (strOf (getF? item (newsKey i "date")))
                  else "")
              ++ "\n")
    ∧ (sectionFile item
        = headingOf item
            ++ concatMap (newsGroupLine item) newsIdxs
            ++ (if newsIdxs.any (emitsGroup item) then "" else "*(暂无新闻)*\n")
            ++ "\n")
    ∧ ((∀ i ∈ newsIdxs, emitsGroup item i = false) →
        sectionFile item = headingOf item ++ "*(暂无新闻)*\n" ++ "\n") := by
  refine ⟨fun i hi => ?_, fun i t l hts htt hls hlt => ?_, rfl, fun hall => ?_⟩
  · simp [newsGroupLine, hi]
  · have hta : truthyTrim (getF? item (newsKey i "title")) = true := by
      rw [hts]; simp [truthyTrim, ne_empty_of_jsTrim_ne t htt, htt]
    have hla : truthyTrim (getF? item (newsKey i "link")) = true := by
      rw [hls]; simp [truthyTrim, ne_empty_of_jsTrim_ne l hlt, hlt]
    have he : emitsGroup item i = true := by
      simp [emitsGroup, hta, hla]
    simp [newsGroupLine, he, hts, hls, strOf]
  · have h1 := hall 1 (by decide)
    have h2 := hall 2 (by decide)
    have h3 := hall 3 (by decide)
    have h4 := hall 4 (by decide)
    have h5 := hall 5 (by decide)
    have hlines : concatMap (newsGroupLine item) newsIdxs = "" := by
      simp [newsIdxs, concatMap, newsGroupLine, h1, h2, h3, h4, h5]
    have hany : newsIdxs.any (emitsGroup item) = false := by
      simp [newsIdxs, h1, h2, h3, h4, h5]
    rw [sectionFile, hlines, hany]
    simp [str_append_empty]

/-- Claim C10: for every list of news items none of which carries a
`symbol_info` object, and every display date, the Markdown document the
remote-service variant assembles equals, byte for byte, the document the
direct-file variant assembles from the same records; per item, the two
sections agree exactly when `symbol_info` is absent. -/
theorem remote_file_markdown_agree :
    (∀ it : NewsItem, it.symbol_info = none →
        sectionRemote it = sectionFile it.fields)
    ∧ ∀ (date : String) (items : List NewsItem),
        (∀ it ∈ items, it.symbol_info = none) →
        buildNewsMdRemote date items
          = buildNewsMdFile date (items.map NewsItem.fields) := by
  refine ⟨sectionRemote_no_symbol, fun date items h => ?_⟩
  rw [buildNewsMdRemote, buildNewsMdFile, docHeaderW_eq,
    concatMap_sections_eq items h]

/-- Claim C10 witness: with one `symbol_info`-free item the two builders
produce the same document. -/
theorem remote_file_markdown_agree_witness :
    buildNewsMdRemote "2024-01-05" [plainItem]
      = buildNewsMdFile "2024-01-05" ([plainItem].map NewsItem.fields) :=
  remote_file_markdown_agree.2 "2024-01-05" [plainItem]
    (by intro it hit; rw [List.mem_singleton] at hit; rw [hit]; rfl)

/-- Claim C1: with a non-blank target identifier and an update collaborator
answering HTTP 200 with body status `"error"`, the run-all pipeline still
logs the update failure and then STARTS the news-import step (it reads the
news file and marks the step) and the chart-import step — `runPortfolioUpdate`
catches its own exception, so the halt the claim (and the spec) describe
never happens. -/
theorem pipeline_continues_after_update_failure :
    Ev.logLine "error" "❌ 失败: Python 脚本错误: boom"
        ∈ importFullPortfolioEv envUpdateFails
    ∧ Ev.logLine "info" "\n=== 步骤 2/3: 导入新闻 ==="
        ∈ importFullPortfolioEv envUpdateFails
    ∧ Ev.remoteCall ("GET " ++ newsPath) ∈ importFullPortfolioEv envUpdateFails
    ∧ Ev.remoteCall ("HEAD " ++ chartPath) ∈ importFullPortfolioEv envUpdateFails := by
  decide

/-- Claim C2, counterexample: the update-data action performs no
target-identifier validation — with a blank target input it still issues
its remote call and emits no validation error line. -/
theorem update_action_runs_without_target :
    jsTrim envBlankTarget.targetDocId = ""
    ∧ remoteCallCount (runPortfolioUpdateEv envBlankTarget) = 1
    ∧ validationErrorCount (runPortfolioUpdateEv envBlankTarget) = 0 := by
  decide

/-- Claim C2 as amended: the news-import, chart-import and run-all actions
each begin by validating the target identifier; with a blank (after
trimming) target each of them emits exactly one validation error log line,
emits nothing else, and performs zero remote calls.  (The update-data
action performs no such validation.) -/
theorem blank_target_validated_actions (env : Env)
    (h : jsTrim env.targetDocId = "") :
    importNewsEv env = [Ev.logLine "error" "错误: 请输入目标文档 ID"]
    ∧ importChartEv env = [Ev.logLine "error" "错误: 请输入目标文档 ID"]
    ∧ importFullPortfolioEv env = [Ev.logLine "error" "错误: 请输入目标文档 ID"]
    ∧ remoteCallCount (importNewsEv env) = 0
    ∧ remoteCallCount (importChartEv env) = 0
    ∧ remoteCallCount (importFullPortfolioEv env) = 0
    ∧ validationErrorCount (importNewsEv env) = 1
    ∧ validationErrorCount (importChartEv env) = 1
    ∧ validationErrorCount (importFullPortfolioEv env) = 1 := by
  have h1 : importNewsEv env = [Ev.logLine "error" "错误: 请输入目标文档 ID"] := by
    rw [importNewsEv, if_pos h]
  have h2 : importChartEv env = [Ev.logLine "error" "错误: 请输入目标文档 ID"] := by
    rw [importChartEv, if_pos h]
  have h3 : importFullPortfolioEv env = [Ev.logLine "error" "错误: 请输入目标文档 ID"] := by
    rw [importFullPortfolioEv, if_pos h]
  refine ⟨h1, h2, h3, ?_, ?_, ?_, ?_, ?_, ?_⟩ <;> simp only [h1, h2, h3] <;> rfl

/-- Claim C2 witness: the amended statement at the concrete blank-target
environment. -/
theorem blank_target_validated_actions_witness :
    importNewsEv envBlankTarget = [Ev.logLine "error" "错误: 请输入目标文档 ID"]
    ∧ importChartEv envBlankTarget = [Ev.logLine "error" "错误: 请输入目标文档 ID"]
    ∧ importFullPortfolioEv envBlankTarget = [Ev.logLine "error" "错误: 请输入目标文档 ID"]
    ∧ remoteCallCount (importNewsEv envBlankTarget) = 0
    ∧ remoteCallCount (importChartEv envBlankTarget) = 0
    ∧ remoteCallCount (importFullPortfolioEv envBlankTarget) = 0
    ∧ validationErrorCount (importNewsEv envBlankTarget) = 1
    ∧ validationErrorCount (importChartEv envBlankTarget) = 1
    ∧ validationErrorCount (importFullPortfolioEv envBlankTarget) = 1 :=
  blank_target_validated_actions envBlankTarget (by decide)

/-- The spec's end-to-end scenario: the selector keeps only the
`2024-01-05` row, and the renderer emits one section for `AAPL` with a
cross-reference to `thesis123` and one annotated link line, excluding
`MSFT` entirely. -/
theorem end_to_end_example :
    parseNewsCSV
        "Date|ticker|thesis|news_1_title|news_1_date|news_1_link\n2024-01-05|AAPL|thesis123|Apple event|2024-01-04|http://x\n2024-01-04|MSFT||||"
      = [[("Date", "2024-01-05"), ("ticker", "AAPL"), ("thesis", "thesis123"),
          ("news_1_title", "Apple event"), ("news_1_date", "2024-01-04"),
          ("news_1_link", "http://x")]]
    ∧ newsImportMd
        (parseNewsCSV
          "Date|ticker|thesis|news_1_title|news_1_date|news_1_link\n2024-01-05|AAPL|thesis123|Apple event|2024-01-04|http://x\n2024-01-04|MSFT||||")
      = "\n---\n# 📈 Portfolio News Update (2024-01-05)\n\n## ((thesis123 \x27AAPL\x27))\n\n- [Apple event](http://x) · 2024-01-04\n\n" := by
  decide
